import Mathlib

/-!
Verification of the iris-module-interface plugin contract.

The development shallowly embeds the two source files of the repository:

* `IrisInterfaceStatus.py` — the `IIStatus` result object, the module-level
  status constants, the call-style update (`__call__`), and the
  `IITaskStatus` subclass with its `merge_task_results` operation.
* `IrisModuleInterface.py` — the plugin base class: construction-time
  readiness checks, configuration retrieval and dict normalization with
  value casting, the unoverridden extension points, and the hook
  registration pass-throughs.

Python runtime values that flow through the embedded code are modelled by
the inductive `PyObj` (None, bool, int, str, list, dict).  Machine behaviour
relevant to the embedded functions — truthiness, `dict.get`, dict item
assignment with hashability, iteration, `int(...)` parsing — is modelled
explicitly.  Statements that in Python raise exceptions are modelled with
`Except String`.
-/

set_option autoImplicit false
set_option linter.unusedVariables false

/-- Model of a Python runtime value as used by the embedded code.
Dicts are association lists of key/value pairs preserving insertion order,
as Python dicts do. -/
inductive PyObj where
  | none : PyObj
  | bool : Bool → PyObj
  | int : Int → PyObj
  | str : String → PyObj
  | list : List PyObj → PyObj
  | dict : List (PyObj × PyObj) → PyObj

/-- A Python dict body: ordered association list. -/
abbrev PyDict := List (PyObj × PyObj)

/-- Python truthiness of a value (`bool(x)`): None, False, 0, "", [], {}
are falsy, everything else truthy. -/
def pyTruthy : PyObj → Bool
  | .none => false
  | .bool b => b
  | .int n => n != 0
  | .str s => s != ""
  | .list xs => !xs.isEmpty
  | .dict xs => !xs.isEmpty

/-- Python `==` restricted to hashable (scalar) values, as used for dict key
comparison.  In Python `True == 1` and `False == 0`; lists and dicts are
unhashable and never reach a key comparison, so they compare unequal here. -/
def pyEqKey : PyObj → PyObj → Bool
  | .none, .none => true
  | .bool a, .bool b => a == b
  | .bool a, .int n => (if a then (1 : Int) else 0) == n
  | .int n, .bool b => n == (if b then (1 : Int) else 0)
  | .int a, .int b => a == b
  | .str a, .str b => a == b
  | _, _ => false

/-- `d.get(k)` on a dict body with a string key: Python `dict.get` returns
None both for a missing key and for a key explicitly bound to None. -/
def pyDictGet : PyDict → PyObj → PyObj
  | [], _ => .none
  | (k, v) :: rest, key => if pyEqKey k key then v else pyDictGet rest key

/-- `d[k] = v` on a dict body: replaces the value of the first equal key in
place (keeping the original key object and position) or appends a new pair. -/
def insertAssoc : PyDict → PyObj → PyObj → PyDict
  | [], k, v => [(k, v)]
  | (k0, v0) :: rest, k, v =>
      if pyEqKey k0 k then (k0, v) :: rest else (k0, v0) :: insertAssoc rest k v

/-- `d[k] = v` including the hashability check: assigning with a list or
dict key raises `TypeError` in Python. -/
def pyDictSetItem (d : PyDict) (k v : PyObj) : Except String PyDict :=
  match k with
  | .list _ => .error "TypeError: unhashable type"
  | .dict _ => .error "TypeError: unhashable type"
  | _ => .ok (insertAssoc d k v)

/-- Reading a key out of a `PyObj` that is expected to be a dict (used to
state lookup properties about returned configuration payloads). -/
def pyInnerGet (o : PyObj) (k : PyObj) : PyObj :=
  match o with
  | .dict xs => pyDictGet xs k
  | _ => .none

/-- `for x in o`: iterating a list yields its elements, a str its characters,
a dict its keys; None/bool/int raise `TypeError`. -/
def pyIterable : PyObj → Except String (List PyObj)
  | .list xs => .ok xs
  | .str s => .ok (s.data.map (fun c => .str (String.mk [c])))
  | .dict xs => .ok (xs.map (fun kv => kv.1))
  | .none => .error "TypeError: NoneType object is not iterable"
  | .bool _ => .error "TypeError: bool object is not iterable"
  | .int _ => .error "TypeError: int object is not iterable"

/-- Digits-only parse of a character list, `none` if empty or non-digit. -/
def digitsToNat (ds : List Char) : Option Nat :=
  if ds = [] then Option.none
  else if ds.all Char.isDigit then
    Option.some (ds.foldl (fun a c => a * 10 + (c.toNat - 48)) 0)
  else Option.none

/-- Strip leading and trailing whitespace from a character list. -/
def trimChars (cs : List Char) : List Char :=
  ((cs.dropWhile Char.isWhitespace).reverse.dropWhile Char.isWhitespace).reverse

/-- Model of Python `int(s)` on a string: optional surrounding whitespace,
optional sign, then decimal digits; anything else raises `ValueError`. -/
def pyInt (s : String) : Option Int :=
  match trimChars s.data with
  | '+' :: ds => (digitsToNat ds).map Int.ofNat
  | '-' :: ds => (digitsToNat ds).map (fun n => -(n : Int))
  | ds => (digitsToNat ds).map Int.ofNat

/-- Model of Python `str.lower()`: character-wise ASCII lowering. -/
def pyLower (s : String) : String :=
  String.mk (s.data.map Char.toLower)

/-! ## IrisInterfaceStatus.py — the `IIStatus` result object -/

/-- `IIStatus`: code, message, opaque data payload, logs.
Source: `IrisInterfaceStatus.py`, class `IIStatus`. -/
structure IIStatus where
  code : Nat
  message : String
  data : PyObj
  logs : PyObj

/-- `IIStatus.__init__`: a falsy code (0) falls back to 0xFFFF, a falsy
message ("") falls back to "Unknown message {code}" formatted with the
original `code` argument. -/
def mkIIStatus (code : Nat) (message : String) (data logs : PyObj) : IIStatus :=
  { code := if code == 0 then 0xFFFF else code
    message := if message == "" then "Unknown message " ++ toString code else message
    data := data
    logs := logs }

/-- `IIStatus.is_success`: code strictly below the 0xFF00 threshold. -/
def is_success (s : IIStatus) : Bool :=
  decide (s.code < 0xFF00)

/-- `IIStatus.is_failure`: code at or above the 0xFF00 threshold. -/
def is_failure (s : IIStatus) : Bool :=
  decide (0xFF00 ≤ s.code)

/-- The arguments of a call-style update `status(*args, **kwargs)`:
the recognized keyword arguments and the single positional string message.
A keyword absent or bound to a falsy value is modelled as `Option.none`
respectively a falsy `PyObj`. -/
structure CallArgs where
  message : Option String
  code : Option Nat
  data : PyObj
  logs : PyObj
  posMessage : Option String

/-- `IIStatus.__call__`: selectively overwrite message/code/data/logs from
truthy keyword arguments, then let a single positional string argument
overwrite the message; the (mutated) object itself is returned.  The log
emission on the failure/success branch has no effect on the object. -/
def iiCall (s : IIStatus) (a : CallArgs) : IIStatus :=
  let s1 := match a.message with
    | Option.some m => if m == "" then s else { s with message := m }
    | Option.none => s
  let s2 := match a.code with
    | Option.some c => if c == 0 then s1 else { s1 with code := c }
    | Option.none => s1
  let s3 := if pyTruthy a.data then { s2 with data := a.data } else s2
  let s4 := if pyTruthy a.logs then { s3 with logs := a.logs } else s3
  match a.posMessage with
  | Option.some m => { s4 with message := m }
  | Option.none => s4

/-- A call-style update with no arguments at all. -/
def noCallArgs : CallArgs :=
  ⟨Option.none, Option.none, .none, .none, Option.none⟩

/-! The module-level standard status constants. -/

def I2UnknownError : IIStatus := mkIIStatus 0xFFFF "Unknown error" .none .none
def I2Error : IIStatus := mkIIStatus 0xFFFE "Unknown error" .none .none
def I2InterfaceNotImplemented : IIStatus :=
  mkIIStatus 0xFF00 "Interface function not implemented" .none .none
def I2UnexpectedResult : IIStatus := mkIIStatus 0xFF01 "Unexpected result" .none .none
def I2FileNotFound : IIStatus := mkIIStatus 0xFF02 "File not found" .none .none
def I2InterfaceNotReady : IIStatus := mkIIStatus 0xFF03 "Interface not ready" .none .none
def I2InterfaceNotInitialized : IIStatus :=
  mkIIStatus 0xFF04 "Interface not initialized" .none .none
def I2CriticalError : IIStatus := mkIIStatus 0xFF05 "Critical error" .none .none
def I2NoError : IIStatus := mkIIStatus 0x1 "No errors" .none .none
def I2Success : IIStatus := mkIIStatus 0x2 "Success" .none .none
def I2ConfigureSuccess : IIStatus := mkIIStatus 0x3 "Configured successfully" .none .none

/-- C1: for every result object of the status type, `is_success` is the
boolean negation of `is_failure`, `is_success` holds exactly when the code
is below 0xFF00, and `is_failure` exactly when the code is at least 0xFF00. -/
theorem c1_success_failure_complement (s : IIStatus) :
    is_success s = !is_failure s
    ∧ is_success s = decide (s.code < 0xFF00)
    ∧ is_failure s = decide (0xFF00 ≤ s.code) := by
  refine ⟨?_, rfl, rfl⟩
  simp only [is_success, is_failure]
  by_cases h : s.code < 0xFF00
  · simp [h, Nat.not_le.mpr h]
  · simp [h, Nat.le_of_not_lt h]

/-! ## IrisInterfaceStatus.py — the `IITaskStatus` subclass -/

/-- Python `+` / `+=` on the operand combinations the embedded code can
produce on the `logs` and message fields: list concatenation, string
concatenation, integer addition; other combinations (in particular anything
involving None) raise `TypeError`. -/
def pyAdd : PyObj → PyObj → Except String PyObj
  | .list a, .list b => .ok (.list (a ++ b))
  | .str a, .str b => .ok (.str (a ++ b))
  | .int a, .int b => .ok (.int (a + b))
  | _, _ => .error "TypeError: unsupported operand types"

/-- `IITaskStatus`: the Celery task result.  It carries the base `IIStatus`
fields (set by `super().__init__()` with no arguments) plus its own
`success` flag and task-related payloads. -/
structure IITaskStatus where
  code : Nat
  message : String
  success : Bool
  user : PyObj
  initial : PyObj
  logs : PyObj
  data : PyObj
  case_name : PyObj
  imported_files : PyObj

/-- `IITaskStatus.__init__`: `super().__init__()` is called with no
arguments, so the base fields come from the `IIStatus` defaults
(code 0xFFFF, message "Unknown error"); then the task fields are assigned. -/
def mkIITaskStatus (success : Bool)
    (user initial logs data case_name imported_files : PyObj) : IITaskStatus :=
  let base := mkIIStatus 0xFFFF "Unknown error" PyObj.none PyObj.none
  { code := base.code
    message := base.message
    success := success
    user := user
    initial := initial
    logs := logs
    data := data
    case_name := case_name
    imported_files := imported_files }

/-- `iit_report_task_failure`: an `IITaskStatus` with `success=False`. -/
def iit_report_task_failure
    (user initial logs data case_name imported_files : PyObj) : IITaskStatus :=
  mkIITaskStatus false user initial logs data case_name imported_files

/-- `iit_report_task_success`: an `IITaskStatus` with `success=True`. -/
def iit_report_task_success
    (user initial logs data case_name imported_files : PyObj) : IITaskStatus :=
  mkIITaskStatus true user initial logs data case_name imported_files

/-- The call-style update `__call__` as inherited by `IITaskStatus`:
identical field updates applied to the subclass instance. -/
def iitCall (s : IITaskStatus) (a : CallArgs) : IITaskStatus :=
  let s1 := match a.message with
    | Option.some m => if m == "" then s else { s with message := m }
    | Option.none => s
  let s2 := match a.code with
    | Option.some c => if c == 0 then s1 else { s1 with code := c }
    | Option.none => s1
  let s3 := if pyTruthy a.data then { s2 with data := a.data } else s2
  let s4 := if pyTruthy a.logs then { s3 with logs := a.logs } else s3
  match a.posMessage with
  | Option.some m => { s4 with message := m }
  | Option.none => s4

/-- `IITaskStatus.merge_task_results(self, new_ret, is_update)`:
sets `self.success = new_ret.success and self.success`, appends
`new_ret.logs` to `self.logs` (raising `TypeError` if either side is not a
list), and assigns `self.data['is_update'] = is_update` (raising `TypeError`
if `self.data` is not a dict).  The code and message fields are not touched. -/
def merge_task_results (self new_ret : IITaskStatus) (is_update : Bool) :
    Except String IITaskStatus :=
  let s1 := { self with success := new_ret.success && self.success }
  match pyAdd s1.logs new_ret.logs with
  | .error e => .error e
  | .ok l =>
    let s2 := { s1 with logs := l }
    match s2.data with
    | .dict d =>
      match pyDictSetItem d (.str "is_update") (.bool is_update) with
      | .error e => .error e
      | .ok d2 => .ok { s2 with data := .dict d2 }
    | _ => .error "TypeError: object does not support item assignment"

/-- A successful task result whose code was afterwards set to 0x2 through
the inherited call-style update (a concrete, reachable object). -/
def c2SuccessInput : IITaskStatus :=
  iitCall (iit_report_task_success .none .none (.list []) (.dict []) .none .none)
    ⟨Option.none, Option.some 2, .none, .none, Option.none⟩

/-- A freshly reported failing task result (code 0xFFFF from construction). -/
def c2FailureInput : IITaskStatus :=
  iit_report_task_failure .none .none (.list []) (.dict []) .none .none

/-- C2 counterexample: merging a successful task result (code 2) with a
failing one (code 0xFFFF) yields a result whose success flag is false but
whose code is the receiver's code 2, not the failing input's code 0xFFFF:
the merged result does not carry the failing input's code. -/
theorem c2_counterexample :
    c2SuccessInput.success = true
    ∧ c2FailureInput.success = false
    ∧ c2FailureInput.code = 0xFFFF
    ∧ (merge_task_results c2SuccessInput c2FailureInput false).map IITaskStatus.code
        = .ok 2
    ∧ (merge_task_results c2SuccessInput c2FailureInput false).map IITaskStatus.code
        ≠ .ok c2FailureInput.code := by
  refine ⟨rfl, rfl, rfl, rfl, ?_⟩
  intro h
  simp only [show (merge_task_results c2SuccessInput c2FailureInput false).map
    IITaskStatus.code = .ok 2 from rfl, show c2FailureInput.code = 0xFFFF from rfl] at h
  exact absurd (Except.ok.inj h) (by decide)

/-- C2 amended: merging two task results of which exactly one is failing
(success flag false) yields a result whose success flag is false, whose log
list is the receiver's logs followed by the argument's logs, and whose code
field is left unchanged at the receiver's code (it is not copied from the
failing input). -/
theorem c2_merge_failure_wins (A B : IITaskStatus) (upd : Bool)
    (la lb : List PyObj) (d : PyDict)
    (hone : (A.success = true ∧ B.success = false)
            ∨ (A.success = false ∧ B.success = true))
    (hla : A.logs = .list la) (hlb : B.logs = .list lb)
    (hd : A.data = .dict d) :
    ∃ R, merge_task_results A B upd = .ok R
      ∧ R.success = false ∧ R.code = A.code ∧ R.logs = .list (la ++ lb) := by
  have hmerge : merge_task_results A B upd =
      .ok { A with success := B.success && A.success,
                   logs := PyObj.list (la ++ lb),
                   data := PyObj.dict (insertAssoc d (.str "is_update") (.bool upd)) } := by
    simp [merge_task_results, hla, hlb, hd, pyAdd, pyDictSetItem]
  refine ⟨_, hmerge, ?_, rfl, rfl⟩
  rcases hone with ⟨h1, h2⟩ | ⟨h1, h2⟩ <;> simp [h1, h2]

/-- C2 amended, witness at the concrete pair used in the counterexample. -/
theorem c2_merge_failure_wins_witness :
    ∃ R, merge_task_results c2SuccessInput c2FailureInput false = .ok R
      ∧ R.success = false ∧ R.code = c2SuccessInput.code
      ∧ R.logs = .list ([] ++ []) :=
  c2_merge_failure_wins c2SuccessInput c2FailureInput false [] [] []
    (Or.inl ⟨rfl, rfl⟩) rfl rfl rfl

/-- A freshly reported successful task result with one log line. -/
def c3InputA : IITaskStatus :=
  iit_report_task_success .none .none (.list [.str "log a"]) (.dict []) .none .none

/-- A second freshly reported successful task result with one log line. -/
def c3InputB : IITaskStatus :=
  iit_report_task_success .none .none (.list [.str "log b"]) (.dict []) .none .none

/-- C3 counterexample: merging two successful task results leaves the
message at the receiver's message ("Unknown error"); it is not the
concatenation of the two inputs' messages. -/
theorem c3_counterexample :
    c3InputA.success = true
    ∧ c3InputB.success = true
    ∧ (merge_task_results c3InputA c3InputB false).map IITaskStatus.message
        = .ok "Unknown error"
    ∧ (merge_task_results c3InputA c3InputB false).map IITaskStatus.message
        ≠ .ok (c3InputA.message ++ c3InputB.message) := by
  refine ⟨rfl, rfl, rfl, ?_⟩
  intro h
  simp only [show (merge_task_results c3InputA c3InputB false).map
    IITaskStatus.message = .ok "Unknown error" from rfl,
    show c3InputA.message ++ c3InputB.message = "Unknown errorUnknown error" from rfl] at h
  exact absurd (Except.ok.inj h) (by decide)

/-- C3 amended: merging two successful task results yields a result whose
success flag is true and whose log list is the receiver's logs followed by
the argument's logs; the message is left unchanged at the receiver's
message, not concatenated. -/
theorem c3_merge_success (A B : IITaskStatus) (upd : Bool)
    (la lb : List PyObj) (d : PyDict)
    (hA : A.success = true) (hB : B.success = true)
    (hla : A.logs = .list la) (hlb : B.logs = .list lb)
    (hd : A.data = .dict d) :
    ∃ R, merge_task_results A B upd = .ok R
      ∧ R.success = true ∧ R.message = A.message ∧ R.logs = .list (la ++ lb) := by
  have hmerge : merge_task_results A B upd =
      .ok { A with success := B.success && A.success,
                   logs := PyObj.list (la ++ lb),
                   data := PyObj.dict (insertAssoc d (.str "is_update") (.bool upd)) } := by
    simp [merge_task_results, hla, hlb, hd, pyAdd, pyDictSetItem]
  exact ⟨_, hmerge, by simp [hA, hB], rfl, rfl⟩

/-- C3 amended, witness at the concrete pair used in the counterexample. -/
theorem c3_merge_success_witness :
    ∃ R, merge_task_results c3InputA c3InputB false = .ok R
      ∧ R.success = true ∧ R.message = c3InputA.message
      ∧ R.logs = .list ([.str "log a"] ++ [.str "log b"]) :=
  c3_merge_success c3InputA c3InputB false [.str "log a"] [.str "log b"] []
    rfl rfl rfl rfl rfl

/-! ## IrisModuleInterface.py — module types and construction-time checks -/

/-- `IrisPipelineTypes`: the pipeline type constants. -/
def pipeline_type_update : String := "pipeline_update"

def pipeline_type_import : String := "pipeline_import"

/-- `IrisModuleTypes.module_pipeline`. -/
def module_pipeline : String := "module_pipeline"

/-- `IrisModuleTypes.module_processor`. -/
def module_processor : String := "module_processor"

/-- The readiness flag computed by `IrisModuleInterface.__init__` from the
class attributes: `_is_ready` starts at False; construction returns early
(leaving it False) when the module is still named "IrisBaseModule"; when
pipeline support is declared, when the module type is processor; and when
the pipeline info declares (truthy) update support without (truthy) import
support.  Otherwise `_is_ready` is set to True.  The pipeline info is the
`_pipeline_info` dict read with `.get`. -/
def irisModuleInitReady (module_name module_type : String)
    (pipeline_support : Bool) (pipeline_info : PyDict) : Bool :=
  if module_name == "IrisBaseModule" then false
  else if pipeline_support then
    if module_type == module_processor then false
    else if pyTruthy (pyDictGet pipeline_info (.str "pipeline_update_support")) then
      if !pyTruthy (pyDictGet pipeline_info (.str "pipeline_import_support")) then false
      else true
    else true
  else true

/-- `is_ready()` returns the `_is_ready` flag computed at construction. -/
def is_ready (module_name module_type : String)
    (pipeline_support : Bool) (pipeline_info : PyDict) : Bool :=
  irisModuleInitReady module_name module_type pipeline_support pipeline_info

/-- The readiness predicate as claim C4 words it: ready exactly when none of
the three construction invariants is violated — not the placeholder name,
not a processor module declaring pipeline support, and the pipeline does not
declare update-support without import-support (the last one stated without
any condition on the pipeline-support flag). -/
def c4ClaimedReady (module_name module_type : String)
    (pipeline_support : Bool) (pipeline_info : PyDict) : Bool :=
  !(module_name == "IrisBaseModule")
  && !(module_type == module_processor && pipeline_support)
  && !(pyTruthy (pyDictGet pipeline_info (.str "pipeline_update_support"))
       && !pyTruthy (pyDictGet pipeline_info (.str "pipeline_import_support")))

/-- The pipeline-info dict declaring update support without import support. -/
def c4PipelineInfo : PyDict :=
  [(.str "pipeline_update_support", .bool true),
   (.str "pipeline_import_support", .bool false)]

/-- C4 counterexample: a module named "SomeModule" with pipeline support
disabled whose pipeline info declares update-support without import-support
ends up ready (the code only checks that invariant when pipeline support is
enabled), although the claim's third invariant is violated, so the claimed
equivalence fails at this input. -/
theorem c4_counterexample :
    is_ready "SomeModule" module_pipeline false c4PipelineInfo = true
    ∧ c4ClaimedReady "SomeModule" module_pipeline false c4PipelineInfo = false := by
  exact ⟨rfl, rfl⟩

/-- C4 amended: after construction, `is_ready()` returns true if and only if
the module's name is not "IrisBaseModule", and, when the module declares
pipeline support, the module is not of processor type and its pipeline info
does not declare (truthy) update-support without (truthy) import-support;
when pipeline support is not declared, the processor and update/import
invariants are not checked. -/
theorem c4_is_ready_characterization (module_name module_type : String)
    (pipeline_support : Bool) (pipeline_info : PyDict) :
    is_ready module_name module_type pipeline_support pipeline_info
      = (!(module_name == "IrisBaseModule")
         && !(pipeline_support && module_type == module_processor)
         && !(pipeline_support
              && pyTruthy (pyDictGet pipeline_info (.str "pipeline_update_support"))
              && !pyTruthy (pyDictGet pipeline_info (.str "pipeline_import_support")))) := by
  simp only [is_ready, irisModuleInitReady]
  by_cases h1 : module_name == "IrisBaseModule" <;>
    by_cases h2 : pipeline_support <;>
      by_cases h3 : module_type == module_processor <;>
        by_cases h4 : pyTruthy (pyDictGet pipeline_info (.str "pipeline_update_support")) <;>
          by_cases h5 : pyTruthy (pyDictGet pipeline_info (.str "pipeline_import_support")) <;>
            simp [h1, h2, h3, h4, h5]

/-! ## IrisModuleInterface.py — unoverridden extension points -/

/-- `return_not_implemented()`: returns the module-level
`I2InterfaceNotImplemented` status. -/
def return_not_implemented : IIStatus :=
  I2InterfaceNotImplemented

/-- Unoverridden `pipeline_files_upload(base_path, file_handle,
case_customer, case_name, is_update)`. -/
def pipeline_files_upload
    (base_path file_handle case_customer case_name is_update : PyObj) : IIStatus :=
  return_not_implemented

/-- Unoverridden `pipeline_handler(pipeline_type, pipeline_data)`. -/
def pipeline_handler (pipeline_type pipeline_data : PyObj) : IIStatus :=
  return_not_implemented

/-- Unoverridden `pipeline_init(app_info)`. -/
def pipeline_init (app_info : PyObj) : IIStatus :=
  return_not_implemented

/-- Unoverridden `hooks_handler(hook_name, hook_ui_name, data)`: returns the
`I2InterfaceNotImplemented` status directly. -/
def hooks_handler (hook_name hook_ui_name : String) (data : PyObj) : IIStatus :=
  I2InterfaceNotImplemented

/-- C6: every unoverridden extension point, at all argument values, returns
the fixed "not implemented" result, whose code is 0xFF00 and which
classifies as a failure. -/
theorem c6_not_implemented_defaults
    (a b c d e pt pd ai dt : PyObj) (hn hu : String) :
    pipeline_files_upload a b c d e = I2InterfaceNotImplemented
    ∧ pipeline_handler pt pd = I2InterfaceNotImplemented
    ∧ pipeline_init ai = I2InterfaceNotImplemented
    ∧ hooks_handler hn hu dt = I2InterfaceNotImplemented
    ∧ I2InterfaceNotImplemented.code = 0xFF00
    ∧ is_failure I2InterfaceNotImplemented = true :=
  ⟨rfl, rfl, rfl, rfl, rfl, rfl⟩

/-! ## IrisModuleInterface.py — hook registration pass-throughs -/

/-- `register_to_hook(module_id, iris_hook_name, manual_hook_name,
run_asynchronously)`: forwards the four arguments verbatim to the
host-provided `register_hook` function, then returns `I2Success(message=log)`
when the host reported True and `I2Error(message=log)` otherwise. -/
def register_to_hook
    (iris_register_hook : Nat → String → Option String → Bool → Bool × String)
    (module_id : Nat) (iris_hook_name : String) (manual_hook_name : Option String)
    (run_asynchronously : Bool) : IIStatus :=
  let r := iris_register_hook module_id iris_hook_name manual_hook_name run_asynchronously
  if r.1 then
    iiCall I2Success ⟨Option.some r.2, Option.none, .none, .none, Option.none⟩
  else
    iiCall I2Error ⟨Option.some r.2, Option.none, .none, .none, Option.none⟩

/-- `deregister_from_hook(module_id, iris_hook_name)`: forwards the two
arguments verbatim to the host-provided `deregister_from_hook` function and
returns `I2Success(message=log)` — the host's boolean is bound but never
consulted. -/
def deregister_from_hook
    (iris_deregister_from_hook : Nat → String → Bool × String)
    (module_id : Nat) (iris_hook_name : String) : IIStatus :=
  let r := iris_deregister_from_hook module_id iris_hook_name
  iiCall I2Success ⟨Option.some r.2, Option.none, .none, .none, Option.none⟩

/-- C7 counterexample: a host `deregister_from_hook` function that reports
boolean failure; the module's wrapper still returns a success result, so the
claimed "success result if and only if the host reported boolean success"
fails at this input. -/
theorem c7_counterexample :
    ((fun (_ : Nat) (_ : String) => (false, "hook not deregistered")) 1 "on_x").1 = false
    ∧ is_success
        (deregister_from_hook
          (fun (_ : Nat) (_ : String) => (false, "hook not deregistered")) 1 "on_x")
        = true := by
  exact ⟨rfl, rfl⟩

/-- C7 amended: both wrappers forward their arguments verbatim to the
host-provided function; `register_to_hook` returns a success result exactly
when the host reported True, carrying the host's log as message when it is
non-empty, while `deregister_from_hook` always returns a success result
carrying the host's (non-empty) log as message, regardless of the host's
boolean. -/
theorem c7_hook_passthrough
    (hostReg : Nat → String → Option String → Bool → Bool × String)
    (hostDereg : Nat → String → Bool × String)
    (module_id : Nat) (iris_hook_name : String) (manual_hook_name : Option String)
    (run_asynchronously : Bool) :
    is_success (register_to_hook hostReg module_id iris_hook_name manual_hook_name
        run_asynchronously)
      = (hostReg module_id iris_hook_name manual_hook_name run_asynchronously).1
    ∧ (register_to_hook hostReg module_id iris_hook_name manual_hook_name
        run_asynchronously).message
      = (if (hostReg module_id iris_hook_name manual_hook_name run_asynchronously).2 == ""
         then (if (hostReg module_id iris_hook_name manual_hook_name run_asynchronously).1
               then "Success" else "Unknown error")
         else (hostReg module_id iris_hook_name manual_hook_name run_asynchronously).2)
    ∧ is_success (deregister_from_hook hostDereg module_id iris_hook_name) = true
    ∧ (deregister_from_hook hostDereg module_id iris_hook_name).message
      = (if (hostDereg module_id iris_hook_name).2 == "" then "Success"
         else (hostDereg module_id iris_hook_name).2) := by
  refine ⟨?_, ?_, ?_, ?_⟩ <;>
    · simp only [register_to_hook, deregister_from_hook, iiCall, I2Success, I2Error,
        mkIIStatus, is_success, pyTruthy]
      rcases hr1 : (hostReg module_id iris_hook_name manual_hook_name run_asynchronously).1 <;>
        rcases hm : (hostReg module_id iris_hook_name manual_hook_name run_asynchronously).2
            == "" <;>
          rcases hm2 : (hostDereg module_id iris_hook_name).2 == "" <;>
            simp [hr1, hm, hm2]

/-! ## Object identity of the module-level status constants (claim C9)

The status values `I2UnknownError` … `I2ConfigureSuccess` are created once
at import time of `IrisInterfaceStatus.py` and thereafter shared: every
operation that "returns" one of them returns a reference to the same
module-level object, and `__call__` mutates that object in place.  To talk
about identity we model the module state as a heap mapping each constant's
name to its current field values, and operations that return a constant as
returning its name (the reference). -/

/-- The identity (reference) of each module-level status constant. -/
inductive StatusRef where
  | unknownError | genericError | notImplementedRef | unexpectedResult
  | fileNotFound | notReady | notInitialized | criticalError
  | noError | successRef | configureSuccess
deriving DecidableEq

/-- The module state: current field values of each status constant. -/
def StatusHeap := StatusRef → IIStatus

/-- The state right after importing `IrisInterfaceStatus.py`. -/
def initStatusHeap : StatusHeap
  | .unknownError => I2UnknownError
  | .genericError => I2Error
  | .notImplementedRef => I2InterfaceNotImplemented
  | .unexpectedResult => I2UnexpectedResult
  | .fileNotFound => I2FileNotFound
  | .notReady => I2InterfaceNotReady
  | .notInitialized => I2InterfaceNotInitialized
  | .criticalError => I2CriticalError
  | .noError => I2NoError
  | .successRef => I2Success
  | .configureSuccess => I2ConfigureSuccess

/-- Writing the object behind one reference back into the module state. -/
def heapWrite (h : StatusHeap) (r : StatusRef) (s : IIStatus) : StatusHeap :=
  fun x => if x = r then s else h x

/-- `status(*args, **kwargs)` on a module-level constant: mutates the
referenced object in place and returns the same reference. -/
def heapCall (h : StatusHeap) (r : StatusRef) (a : CallArgs) :
    StatusHeap × StatusRef :=
  (heapWrite h r (iiCall (h r) a), r)

/-- `return_not_implemented()` at the reference level: every call returns
the reference to the one module-level `I2InterfaceNotImplemented` object. -/
def return_not_implemented_ref : StatusRef :=
  .notImplementedRef

/-- C9 counterexample: two calls to the unoverridden extension point return
the same module-level object, and a call-style update applied to the result
of the first call changes the message observed through the result of the
second call — result objects are shared, not fresh per operation. -/
theorem c9_counterexample :
    return_not_implemented_ref = return_not_implemented_ref
    ∧ (initStatusHeap return_not_implemented_ref).message
        = "Interface function not implemented"
    ∧ ((heapCall initStatusHeap return_not_implemented_ref
          ⟨Option.some "mutated by first caller", Option.none, .none, .none,
            Option.none⟩).1
        return_not_implemented_ref).message
        = "mutated by first caller" := by
  exact ⟨rfl, rfl, rfl⟩

/-- C9 amended: the fixed status results are module-level singletons: every
call of `return_not_implemented` returns the same reference, and for any
module state a call-style update applied through that reference is observed
through the reference returned by any other call of it. -/
theorem c9_shared_singleton (h : StatusHeap) (a : CallArgs) :
    ((heapCall h return_not_implemented_ref a).1 return_not_implemented_ref)
      = iiCall (h return_not_implemented_ref) a
    ∧ (heapCall h return_not_implemented_ref a).2 = return_not_implemented_ref := by
  exact ⟨rfl, rfl⟩

/-! ## IrisModuleInterface.py — configuration retrieval and normalization -/

/-- The default `_module_configuration` class attribute: the two example
proxy parameters. -/
def module_configuration_default : PyObj :=
  .list
    [.dict
      [(.str "param_name", .str "ex_http_proxy"),
       (.str "param_human_name", .str "HTTP Proxy"),
       (.str "param_description", .str "Example HTTP Proxy"),
       (.str "default", .none),
       (.str "mandatory", .bool false),
       (.str "type", .str "string")],
     .dict
      [(.str "param_name", .str "ex_https_proxy"),
       (.str "param_human_name", .str "HTTPS Proxy"),
       (.str "param_description", .str "Example HTTPS Proxy"),
       (.str "default", .none),
       (.str "mandatory", .bool true),
       (.str "type", .str "string")]]

/-- `get_configuration()`: when the host-supplied `_mod_web_config` is falsy,
return `I2InterfaceNotReady("Module configuration not retrieved, using
default", data=<init configuration>)`; otherwise return
`I2Success(data=_mod_web_config)`. -/
def get_configuration (mod_web_config module_configuration : PyObj) : IIStatus :=
  if !pyTruthy mod_web_config then
    iiCall I2InterfaceNotReady
      ⟨Option.none, Option.none, module_configuration, .none,
        Option.some "Module configuration not retrieved, using default"⟩
  else
    iiCall I2Success ⟨Option.none, Option.none, mod_web_config, .none, Option.none⟩

/-- `_cast_configuration_value(value, value_type)`: a string value with
declared type "bool" becomes the boolean `value.lower() == "true"`; a string
value with declared type "int" is parsed with `int(...)`, which raises
`ValueError` on a non-numeric string; every other combination is returned
unchanged. -/
def cast_configuration_value (value value_type : PyObj) : Except String PyObj :=
  match value_type, value with
  | .str "bool", .str s => .ok (.bool (pyLower s == "true"))
  | .str "int", .str s =>
    match pyInt s with
    | Option.some n => .ok (.int n)
    | Option.none => .error ("ValueError: invalid literal for int: " ++ s)
  | _, _ => .ok value

/-- `param.get('param_name')` of one record. -/
def recName (d : PyDict) : PyObj :=
  pyDictGet d (.str "param_name")

/-- The value the loop chooses to cast for one record: the explicit value
when `param.get('value') is not None`, the default otherwise. -/
def recChosen (d : PyDict) : PyObj :=
  match pyDictGet d (.str "value") with
  | .none => pyDictGet d (.str "default")
  | v => v

/-- The cast applied to one record's chosen value. -/
def recCast (d : PyDict) : Except String PyObj :=
  cast_configuration_value (recChosen d) (pyDictGet d (.str "type"))

/-- The body of the `for param in standard_configuration_data:` loop inside
the `try:` block: each element must be a dict (otherwise `.get` raises
`AttributeError`), its chosen value is cast, and the result is assigned into
the accumulating `configuration` dict under the record's `param_name`. -/
def configLoop : List PyObj → PyDict → Except String PyDict
  | [], acc => .ok acc
  | p :: rest, acc =>
    match p with
    | .dict d =>
      match recCast d with
      | .error e => .error e
      | .ok cv =>
        match pyDictSetItem acc (recName d) cv with
        | .error e => .error e
        | .ok acc2 => configLoop rest acc2
    | _ => .error "AttributeError: object has no attribute get"

/-- The whole `try:` block: iterate the payload (raising `TypeError` if it
is not iterable) and run the loop starting from the empty dict. -/
def configTry (standard_configuration_data : PyObj) : Except String PyDict :=
  match pyIterable standard_configuration_data with
  | .error e => .error e
  | .ok items => configLoop items []

/-- The body of `get_configuration_dict` after `get_configuration()` has
produced `standard_configuration`: on a success status the code tests
`standard_configuration is None` — the status object itself, which is never
None, modelled by wrapping the bound object in `Option.some` — and otherwise
runs the `try:` block on the payload, converting any raised exception into
`I2Error("Configuration malformed: ...")`; on a non-success status the
faulty status is returned unchanged. -/
def config_dict_body (standard_configuration : IIStatus) : IIStatus :=
  if is_success standard_configuration then
    let standard_configuration_data := standard_configuration.data
    if (Option.some standard_configuration).isNone then
      iiCall I2Error
        ⟨Option.none, Option.none, .none, .none,
          Option.some "IRIS returned empty configuration"⟩
    else
      match configTry standard_configuration_data with
      | .ok configuration =>
        iiCall I2Success
          ⟨Option.none, Option.none, .dict configuration, .none, Option.none⟩
      | .error e =>
        iiCall I2Error
          ⟨Option.none, Option.none, .none, .none,
            Option.some ("Configuration malformed: " ++ e)⟩
  else standard_configuration

/-- `get_configuration_dict()`: the composition of `get_configuration` and
the body above. -/
def get_configuration_dict (mod_web_config module_configuration : PyObj) : IIStatus :=
  config_dict_body (get_configuration mod_web_config module_configuration)

/-! ### Association-list lemmas for the configuration dict -/

/-- Looking up a string key right after assigning it yields the assigned
value. -/
lemma pyDictGet_insertAssoc_self (d : PyDict) (s : String) (v : PyObj) :
    pyDictGet (insertAssoc d (.str s) v) (.str s) = v := by
  induction d with
  | nil => simp [insertAssoc, pyDictGet, pyEqKey]
  | cons kv rest ih =>
    obtain ⟨k0, v0⟩ := kv
    by_cases h : pyEqKey k0 (.str s) = true
    · simp [insertAssoc, h, pyDictGet]
    · simp [insertAssoc, h, pyDictGet, ih]

/-- Assigning one string key does not change the lookup of a different
string key. -/
lemma pyDictGet_insertAssoc_ne (d : PyDict) (s t : String) (v : PyObj)
    (hst : s ≠ t) :
    pyDictGet (insertAssoc d (.str t) v) (.str s) = pyDictGet d (.str s) := by
  induction d with
  | nil =>
    have hts : (t == s) = false := beq_eq_false_iff_ne.mpr (Ne.symm hst)
    simp [insertAssoc, pyDictGet, pyEqKey, hts]
  | cons kv rest ih =>
    obtain ⟨k0, v0⟩ := kv
    by_cases h : pyEqKey k0 (.str t) = true
    · have hk0 : ∃ u, k0 = PyObj.str u ∧ u = t := by
        cases k0 <;> simp_all [pyEqKey]
      obtain ⟨u, rfl, hut⟩ := hk0
      subst hut
      have hus : (u == s) = false := by
        rw [beq_eq_false_iff_ne]
        exact fun hus => hst hus.symm
      simp [insertAssoc, pyDictGet, pyEqKey, h, hus]
    · by_cases h2 : pyEqKey k0 (.str s) = true <;>
        simp [insertAssoc, pyDictGet, h, h2, ih]

/-- An item assignment never empties a dict. -/
lemma insertAssoc_ne_nil (d : PyDict) (k v : PyObj) : insertAssoc d k v ≠ [] := by
  cases d with
  | nil => simp [insertAssoc]
  | cons kv rest =>
    obtain ⟨k0, v0⟩ := kv
    by_cases h : pyEqKey k0 k = true <;> simp [insertAssoc, h]

/-- When the record carries a non-None explicit value, the loop casts that
value. -/
lemma recChosen_of_value (d : PyDict) (h : pyDictGet d (.str "value") ≠ PyObj.none) :
    recChosen d = pyDictGet d (.str "value") := by
  unfold recChosen
  rcases hv : pyDictGet d (.str "value") <;> simp_all

/-- When the record carries no explicit value (or an explicit None), the
loop casts the default. -/
lemma recChosen_of_default (d : PyDict) (h : pyDictGet d (.str "value") = PyObj.none) :
    recChosen d = pyDictGet d (.str "default") := by
  unfold recChosen
  rw [h]

/-- The configuration loop on a list of records with pairwise-distinct
string parameter names and successful casts: it succeeds and the resulting
dict maps every record's name to its cast value; lookups of absent names
fall through to the starting accumulator, and the result can only be empty
when both the records and the accumulator were. -/
lemma configLoop_ok (records : List PyDict) (names : List String) (acc : PyDict)
    (hn : records.map recName = names.map PyObj.str)
    (hnd : names.Nodup)
    (hc : ∀ d ∈ records, ∃ cv, recCast d = .ok cv) :
    ∃ final, configLoop (records.map PyObj.dict) acc = .ok final
      ∧ (∀ d ∈ records, ∀ cv, recCast d = .ok cv → pyDictGet final (recName d) = cv)
      ∧ (∀ s : String, PyObj.str s ∉ records.map recName →
          pyDictGet final (.str s) = pyDictGet acc (.str s))
      ∧ (final = [] → records = [] ∧ acc = []) := by
  induction records generalizing names acc with
  | nil =>
    exact ⟨acc, rfl, by simp, fun s _ => rfl, fun h => ⟨rfl, h⟩⟩
  | cons d rest ih =>
    cases names with
    | nil => simp at hn
    | cons s ns =>
      simp only [List.map_cons, List.cons.injEq] at hn
      obtain ⟨hd, hrest⟩ := hn
      rw [List.nodup_cons] at hnd
      obtain ⟨hs, hnsd⟩ := hnd
      obtain ⟨cv0, hcv0⟩ := hc d (List.mem_cons_self d rest)
      obtain ⟨final, hloop, hlook, hstab, hnil⟩ :=
        ih ns (insertAssoc acc (.str s) cv0) hrest hnsd
          (fun d' hd' => hc d' (List.mem_cons_of_mem d hd'))
      have hsetitem : pyDictSetItem acc (recName d) cv0
          = .ok (insertAssoc acc (.str s) cv0) := by
        rw [hd]; rfl
      have hstep : configLoop ((d :: rest).map PyObj.dict) acc
          = configLoop (rest.map PyObj.dict) (insertAssoc acc (.str s) cv0) := by
        simp only [List.map_cons, configLoop, hcv0, hsetitem]
      have hsmem : PyObj.str s ∉ rest.map recName := by
        rw [hrest]
        intro hmem
        obtain ⟨x, hx, hxe⟩ := List.mem_map.mp hmem
        exact hs ((PyObj.str.inj hxe) ▸ hx)
      refine ⟨final, by rw [hstep]; exact hloop, ?_, ?_, ?_⟩
      · intro d' hd' cv hcv
        rcases List.mem_cons.mp hd' with heq | hmem
        · subst heq
          rw [hcv0] at hcv
          have hcveq : cv0 = cv := Except.ok.inj hcv
          rw [hd, hstab s hsmem, pyDictGet_insertAssoc_self, hcveq]
        · exact hlook d' hmem cv hcv
      · intro s' hs'
        simp only [List.map_cons, List.mem_cons, not_or] at hs'
        obtain ⟨hne1, hne2⟩ := hs'
        have hss' : s' ≠ s := by
          intro he
          exact hne1 (by rw [he, hd])
        rw [hstab s' hne2, pyDictGet_insertAssoc_ne acc s' s cv0 hss']
      · intro hf
        obtain ⟨hrest_nil, hacc2⟩ := hnil hf
        exact absurd hacc2 (insertAssoc_ne_nil acc _ _)

/-- Evaluation of `get_configuration` when the host-supplied configuration
is truthy: a success status carrying it as data. -/
lemma get_configuration_of_truthy (cfg init_conf : PyObj)
    (h : pyTruthy cfg = true) :
    get_configuration cfg init_conf = ⟨0x2, "Success", cfg, .none⟩ := by
  simp [get_configuration, iiCall, I2Success, mkIIStatus, h,
    show pyTruthy PyObj.none = false from rfl]

/-- Evaluation of the `get_configuration_dict` body when the status is a
success and the `try:` block produces a non-empty dict. -/
lemma config_dict_body_ok (standard : IIStatus) (conf : PyDict)
    (hs : is_success standard = true) (ht : configTry standard.data = .ok conf)
    (hne : conf ≠ []) :
    config_dict_body standard = ⟨0x2, "Success", .dict conf, .none⟩ := by
  rcases conf with _ | ⟨kv, conf'⟩
  · exact absurd rfl hne
  · simp [config_dict_body, hs, ht, iiCall, I2Success, mkIIStatus, pyTruthy]

/-- Evaluation of the `get_configuration_dict` body when the status is a
success and the `try:` block raises: the exception text is wrapped into the
"Configuration malformed" error result. -/
lemma config_dict_body_malformed (standard : IIStatus) (e : String)
    (hs : is_success standard = true) (ht : configTry standard.data = .error e) :
    config_dict_body standard
      = ⟨0xFFFE, "Configuration malformed: " ++ e, .none, .none⟩ := by
  simp [config_dict_body, hs, ht, iiCall, I2Error, mkIIStatus, pyTruthy]

/-- C5: for a module whose host-supplied configuration is a non-empty list
of parameter records with pairwise-distinct string parameter names whose
casts succeed, `get_configuration_dict` returns a success result whose data
maps each record's `param_name` to the type-cast explicit value when the
record carries a non-None value, and to the type-cast default otherwise. -/
theorem c5_configuration_dict_normalization
    (records : List PyDict) (names : List String) (init_conf : PyObj)
    (hne : records ≠ [])
    (hn : records.map recName = names.map PyObj.str)
    (hnd : names.Nodup)
    (hc : ∀ d ∈ records, ∃ cv, recCast d = .ok cv) :
    is_success (get_configuration_dict (.list (records.map PyObj.dict)) init_conf) = true
    ∧ (∀ d ∈ records,
        (pyDictGet d (.str "value") ≠ PyObj.none →
          ∀ cv, cast_configuration_value (pyDictGet d (.str "value"))
              (pyDictGet d (.str "type")) = .ok cv →
            pyInnerGet (get_configuration_dict (.list (records.map PyObj.dict))
                init_conf).data (recName d) = cv)
        ∧ (pyDictGet d (.str "value") = PyObj.none →
          ∀ cv, cast_configuration_value (pyDictGet d (.str "default"))
              (pyDictGet d (.str "type")) = .ok cv →
            pyInnerGet (get_configuration_dict (.list (records.map PyObj.dict))
                init_conf).data (recName d) = cv)) := by
  have htr : pyTruthy (.list (records.map PyObj.dict)) = true := by
    rcases records with _ | ⟨d, rest⟩
    · exact absurd rfl hne
    · rfl
  obtain ⟨final, hloop, hlook, hstab, hnil⟩ := configLoop_ok records names [] hn hnd hc
  have htry : configTry (.list (records.map PyObj.dict)) = .ok final := by
    simp [configTry, pyIterable, hloop]
  have hfne : final ≠ [] := fun hf => absurd (hnil hf).1 hne
  have hgc : get_configuration (.list (records.map PyObj.dict)) init_conf
      = ⟨0x2, "Success", .list (records.map PyObj.dict), .none⟩ :=
    get_configuration_of_truthy _ _ htr
  have hbody : get_configuration_dict (.list (records.map PyObj.dict)) init_conf
      = ⟨0x2, "Success", .dict final, .none⟩ := by
    rw [get_configuration_dict, hgc]
    exact config_dict_body_ok _ final rfl htry hfne
  refine ⟨by rw [hbody]; rfl, ?_⟩
  intro d hd
  constructor
  · intro hv cv hcast
    have hchosen : recChosen d = pyDictGet d (.str "value") := recChosen_of_value d hv
    have hrc : recCast d = .ok cv := by rw [recCast, hchosen]; exact hcast
    have hget := hlook d hd cv hrc
    rw [hbody]
    simpa [pyInnerGet] using hget
  · intro hv cv hcast
    have hchosen : recChosen d = pyDictGet d (.str "default") := recChosen_of_default d hv
    have hrc : recCast d = .ok cv := by rw [recCast, hchosen]; exact hcast
    have hget := hlook d hd cv hrc
    rw [hbody]
    simpa [pyInnerGet] using hget

/-- The C5 witness record: a mandatory boolean-typed parameter with no
explicit value and default "true". -/
def c5WitnessRecord : PyDict :=
  [(.str "param_name", .str "mandatory_param"),
   (.str "param_human_name", .str "Mandatory Parameter"),
   (.str "param_description", .str "A mandatory boolean parameter"),
   (.str "default", .str "true"),
   (.str "mandatory", .bool true),
   (.str "type", .str "bool")]

/-- C5 witness: on the concrete one-record configuration with a mandatory
boolean-typed parameter having no explicit value and default "true", the
normalized dict maps it to boolean true and the result is a success. -/
theorem c5_configuration_dict_normalization_witness :
    is_success (get_configuration_dict (.list [.dict c5WitnessRecord])
      module_configuration_default) = true
    ∧ pyInnerGet (get_configuration_dict (.list [.dict c5WitnessRecord])
        module_configuration_default).data (.str "mandatory_param") = .bool true := by
  have h := c5_configuration_dict_normalization [c5WitnessRecord] ["mandatory_param"]
    module_configuration_default (by simp) rfl (List.nodup_singleton _)
    (by
      intro d hd
      rw [List.mem_singleton] at hd
      subst hd
      exact ⟨.bool true, rfl⟩)
  refine ⟨h.1, ?_⟩
  have h2 := (h.2 c5WitnessRecord (List.mem_singleton.mpr rfl)).2 rfl (.bool true) rfl
  exact h2

/-- C8: for every truthy host-supplied configuration on which the `try:`
block of `get_configuration_dict` raises (bad casts, malformed records,
non-iterable payloads, unhashable names), the exception is caught and
converted into the returned "Configuration malformed" failure result — it
never propagates to the caller. -/
theorem c8_malformed_config_is_caught
    (mod_web_config init_conf : PyObj) (e : String)
    (htr : pyTruthy mod_web_config = true)
    (herr : configTry mod_web_config = .error e) :
    get_configuration_dict mod_web_config init_conf
      = ⟨0xFFFE, "Configuration malformed: " ++ e, .none, .none⟩
    ∧ is_failure (get_configuration_dict mod_web_config init_conf) = true := by
  have hgc := get_configuration_of_truthy mod_web_config init_conf htr
  have hbody : get_configuration_dict mod_web_config init_conf
      = ⟨0xFFFE, "Configuration malformed: " ++ e, .none, .none⟩ := by
    rw [get_configuration_dict, hgc]
    exact config_dict_body_malformed _ e rfl herr
  exact ⟨hbody, by rw [hbody]; rfl⟩

/-- The C8 witness record: an int-typed parameter whose explicit value is
the non-numeric string "abc", so the `int(...)` cast raises `ValueError`. -/
def c8BadRecord : PyDict :=
  [(.str "param_name", .str "proxy_port"),
   (.str "value", .str "abc"),
   (.str "type", .str "int")]

/-- C8 witness: on the concrete configuration with a non-numeric string
declared as int, `get_configuration_dict` returns the malformed-configuration
failure result instead of raising. -/
theorem c8_malformed_config_is_caught_witness :
    pyTruthy (.list [.dict c8BadRecord]) = true
    ∧ get_configuration_dict (.list [.dict c8BadRecord]) module_configuration_default
        = ⟨0xFFFE, "Configuration malformed: ValueError: invalid literal for int: abc",
            .none, .none⟩
    ∧ is_failure (get_configuration_dict (.list [.dict c8BadRecord])
        module_configuration_default) = true := by
  have h := c8_malformed_config_is_caught (.list [.dict c8BadRecord])
    module_configuration_default "ValueError: invalid literal for int: abc" rfl rfl
  exact ⟨rfl, h.1, h.2⟩

/-- C10: inside `get_configuration_dict` the None test on the success path
is applied to the status object returned by `get_configuration` — which is
never None, so the "IRIS returned empty configuration" branch is
unreachable — and a success status carrying None data makes the iteration
raise inside the `try:` block, so the method returns the "Configuration
malformed" failure result instead of the dedicated empty-configuration
error. -/
theorem c10_empty_config_branch_unreachable :
    (∀ standard : IIStatus, (Option.some standard).isNone = false)
    ∧ (∀ standard : IIStatus, is_success standard = true →
        standard.data = PyObj.none →
        config_dict_body standard
          = ⟨0xFFFE,
              "Configuration malformed: TypeError: NoneType object is not iterable",
              .none, .none⟩
        ∧ (config_dict_body standard).message ≠ "IRIS returned empty configuration") := by
  refine ⟨fun _ => rfl, fun standard hs hdata => ?_⟩
  have ht : configTry standard.data
      = .error "TypeError: NoneType object is not iterable" := by
    rw [hdata]; rfl
  have hb := config_dict_body_malformed standard _ hs ht
  refine ⟨hb, ?_⟩
  rw [hb]
  intro hmsg
  exact absurd hmsg (by decide)

/-- C10 witness: the success constant `I2Success` itself is a success status
carrying None data; the body converts it to the malformed-configuration
result, not the empty-configuration error. -/
theorem c10_empty_config_branch_unreachable_witness :
    is_success I2Success = true
    ∧ config_dict_body I2Success
        = ⟨0xFFFE,
            "Configuration malformed: TypeError: NoneType object is not iterable",
            .none, .none⟩
    ∧ (config_dict_body I2Success).message ≠ "IRIS returned empty configuration" := by
  have h := c10_empty_config_branch_unreachable.2 I2Success rfl rfl
  exact ⟨rfl, h.1, h.2⟩
